import Mathlib

/-!
Shallow embedding of the warehouse query layer and the user-creation endpoint
of the labvoto backend (`app/bigquery_client.py`, `app/main.py`).

Pure functions of the Python code become Lean functions; raising ValueError or
HTTPException is modelled with `Except`; BigQuery FLOAT64 results are modelled
as rationals; NULLable columns are modelled with `Option`. The SQL queries are
modelled denotationally: a CTE with GROUP BY and SUM becomes `groupSum` over a
list of table rows, WHERE becomes `List.filter`, and a LEFT JOIN becomes a
`find?` lookup on the join key. ORDER BY clauses are not modelled (no claim
concerns row ordering). Python `str.upper`, `str.lower` and `str.strip` are
modelled by `pyUpper`, `pyLower` and `pyStrip` on the character data.
-/

namespace LabVoto

/-- Value carried by one BigQuery query parameter (`ScalarQueryParameter` or
`ArrayQueryParameter` of `google.cloud.bigquery`). -/
inductive ParamValue where
  | str (s : String)
  | int (i : Int)
  | strArr (l : List String)
  | intArr (l : List Int)
deriving DecidableEq

/-- One named, typed parameter binding handed to the BigQuery job config. -/
structure QueryParam where
  name : String
  btype : String
  value : ParamValue
deriving DecidableEq

/-- Error outcomes of the embedded functions. The ValueError raise sites of
`bigquery_client.py` are validation errors; the duplicate-email HTTPException
(status 400, main.py line 130) in `criar_usuario` is the conflict outcome.
Message strings are omitted: one constructor per raise site. -/
inductive ApiError where
  | estadualSemTerritorio
  | municipalSemTerritorio
  | municipalSemMunicipio
  | anosVazio
  | cargosVazio
  | siglasUfVazio
  | siglaPartidoVazio
  | emailJaCadastrado
deriving DecidableEq

/-- Python `str.upper`, applied to the character data of the string. -/
def pyUpper (s : String) : String := ⟨s.data.map Char.toUpper⟩

/-- Python `str.lower`, applied to the character data of the string. -/
def pyLower (s : String) : String := ⟨s.data.map Char.toLower⟩

/-- Python `str.strip`: drop leading and trailing whitespace. -/
def pyStrip (s : String) : String :=
  ⟨((s.data.dropWhile Char.isWhitespace).reverse.dropWhile Char.isWhitespace).reverse⟩

/-- Python truthiness test `not x` for an optional string parameter: true when
the argument is None or the empty string. -/
def pyFalsyOpt : Option String → Bool
  | none => true
  | some s => s.isEmpty

/-- SQL predicate `resultado LIKE` with the pattern eleito-then-percent: the
outcome text begins with eleito. -/
def likeEleito (s : String) : Bool := "eleito".data.isPrefixOf s.data

/-- True exactly when an `Except` value is an error, i.e. the embedded Python
function raised before reaching the query-execution call. -/
def raisedError {α : Type} : Except ApiError α → Bool
  | .error _ => true
  | .ok _ => false

/-- Limit clamping of the CandidateSearch endpoint `buscar_politico`
(main.py lines 382-386): first cap values above 500 at 500, then raise values
below 1 to 1. -/
def clampLimit (limit : Int) : Int :=
  let l1 := if limit > 500 then 500 else limit
  if l1 < 1 then 1 else l1

/-- Tags for the SQL text fragments concatenated in
`buscar_cargos_eleitos_partido`; each tag stands for the literal snippet at the
cited lines of `app/bigquery_client.py`. -/
inductive SqlFragment where
  | baseCargosEleitos
  | filtroNacional
  | filtroEstadual
  | filtroMunicipal
  | groupOrderCargos
deriving DecidableEq

/-- `buscar_cargos_eleitos_partido` (bigquery_client.py lines 79-161): builds
the query fragment list and the bound parameter list, raising ValueError for a
missing territorio under abrangencia Estadual, and for a missing territorio or
municipio under abrangencia Municipal. An `Except.error` result means the
function raised before `client.query` was reached, so no query was executed. -/
def buscar_cargos_eleitos_partido (partido abrangencia : String)
    (territorio : Option String := none) (municipio : Option String := none) :
    Except ApiError (List SqlFragment × List QueryParam) :=
  let baseParams : List QueryParam := [⟨"partido", "STRING", .str (pyUpper partido)⟩]
  if abrangencia = "Nacional" then
    .ok ([.baseCargosEleitos, .filtroNacional, .groupOrderCargos], baseParams)
  else if abrangencia = "Estadual" then
    if pyFalsyOpt territorio then .error .estadualSemTerritorio
    else
      .ok ([.baseCargosEleitos, .filtroEstadual, .groupOrderCargos],
        baseParams ++ [⟨"sigla_uf", "STRING", .str (pyUpper (territorio.getD ""))⟩])
  else if abrangencia = "Municipal" then
    if pyFalsyOpt territorio then .error .municipalSemTerritorio
    else if pyFalsyOpt municipio then .error .municipalSemMunicipio
    else
      .ok ([.baseCargosEleitos, .filtroMunicipal, .groupOrderCargos],
        baseParams ++ [⟨"sigla_uf", "STRING", .str (pyUpper (territorio.getD ""))⟩,
                       ⟨"municipio", "STRING", .str (municipio.getD "")⟩])
  else
    .ok ([.baseCargosEleitos, .groupOrderCargos], baseParams)

/-- BigQuery SAFE_DIVIDE: NULL instead of an error when the divisor is zero,
and NULL when either operand is NULL. FLOAT64 values are modelled as
rationals. -/
def safeDivide : Option ℚ → Option ℚ → Option ℚ
  | some x, some y => if y = 0 then none else some (x / y)
  | _, _ => none

/-- BigQuery SAFE_MULTIPLY: NULL when either operand is NULL. -/
def safeMultiply : Option ℚ → Option ℚ → Option ℚ
  | some x, some y => some (x * y)
  | _, _ => none

/-- The prop_votos_validos column of the final SELECT in `buscar_votos_partido`
(bigquery_client.py line 245). -/
def propVotosValidos (votosPartido : Int) (votosValidos : Option Int) : Option ℚ :=
  safeDivide (some (votosPartido : ℚ)) (votosValidos.map fun n => (n : ℚ))

/-- The perc_votos_validos column (line 246). -/
def percVotosValidos (votosPartido : Int) (votosValidos : Option Int) : Option ℚ :=
  safeMultiply (propVotosValidos votosPartido votosValidos) (some 100)

/-- The custo_por_voto column of `buscar_custo_por_voto_eleitos` (line 381) and
`buscar_distribuicao_fundo_eleitoral` (line 531). -/
def custoPorVoto (despesasTotais : Option ℚ) (votos : Int) : Option ℚ :=
  safeDivide despesasTotais (some (votos : ℚ))

/-- Denotation of a SQL GROUP BY with a SUM aggregate over a list of rows: one
output pair per distinct key, carrying the sum of `val` over exactly the rows
with that key. -/
def groupSum {α κ : Type} [DecidableEq κ] (key : α → κ) (val : α → Int)
    (rows : List α) : List (κ × Int) :=
  (rows.map key).dedup.map fun k =>
    (k, ((rows.filter fun r => decide (key r = k)).map val).sum)

/-- Row of the basedosdados br_tse_eleicoes resultados_candidato table, with
the fields read by the votos_partido CTE of `buscar_votos_partido`. -/
structure RCDRow where
  ano : Int
  turno : Int
  sigla_uf : String
  id_municipio_tse : String
  cargo : String
  sigla_partido : String
  resultado : String
  votos : Int
deriving DecidableEq

/-- Row of the detalhes_votacao_municipio table, with the fields read by the
votos_validos_total CTE. -/
structure DVMRow where
  ano : Int
  turno : Int
  sigla_uf : String
  id_municipio_tse : String
  cargo : String
  votos_validos : Int
deriving DecidableEq

/-- Group key of the votos_partido CTE (GROUP BY ano, turno, sigla_uf,
id_municipio_tse, cargo, partido at bigquery_client.py line 222). -/
structure VPKey where
  ano : Int
  turno : Int
  sigla_uf : String
  id_municipio_tse : String
  cargo : String
  partido : String
deriving DecidableEq

/-- Group key of the votos_validos_total CTE (GROUP BY ano, turno, sigla_uf,
id_municipio_tse, cargo at line 235), which is also the USING key of the LEFT
JOIN at line 249. -/
structure VVKey where
  ano : Int
  turno : Int
  sigla_uf : String
  id_municipio_tse : String
  cargo : String
deriving DecidableEq

def vpKeyOf (r : RCDRow) : VPKey :=
  ⟨r.ano, r.turno, r.sigla_uf, r.id_municipio_tse, r.cargo, r.sigla_partido⟩

def vvKeyOfDVM (r : DVMRow) : VVKey :=
  ⟨r.ano, r.turno, r.sigla_uf, r.id_municipio_tse, r.cargo⟩

/-- Projection of a votos_partido group key to the five shared JOIN columns. -/
def vvKeyOfVP (k : VPKey) : VVKey :=
  ⟨k.ano, k.turno, k.sigla_uf, k.id_municipio_tse, k.cargo⟩

/-- The votos_partido CTE (lines 206-223), with the bound parameters already
substituted the way lines 254-260 bind them: @sigla_partido is
`pyUpper sigla_partido`, @sigla_uf is `pyUpper sigla_uf`, @cargo is
`pyLower cargo`, @ano_alvo is `ano`, @turnos is `turnos`. -/
def votosPartidoAgg (rcd : List RCDRow) (sigla_partido sigla_uf cargo : String)
    (ano : Int) (turnos : List Int) : List (VPKey × Int) :=
  groupSum vpKeyOf (fun r => r.votos)
    (rcd.filter fun r =>
      decide (r.ano = ano) && decide (r.turno ∈ turnos) &&
      decide (r.sigla_partido = pyUpper sigla_partido) &&
      decide (r.sigla_uf = pyUpper sigla_uf) &&
      decide (r.cargo = pyLower cargo) && likeEleito r.resultado)

/-- The votos_validos_total CTE (lines 224-236): WHERE ano = @ano_alvo AND
turno IN UNNEST(@turnos), then GROUP BY the five-field key with
SUM(votos_validos). -/
def votosValidosTotal (dvm : List DVMRow) (ano : Int) (turnos : List Int) :
    List (VVKey × Int) :=
  groupSum vvKeyOfDVM (fun r => r.votos_validos)
    (dvm.filter fun r => decide (r.ano = ano) && decide (r.turno ∈ turnos))

/-- Output row of `buscar_votos_partido` (lines 272-285). -/
structure VotosPartidoOut where
  ano : Int
  sigla_uf : String
  id_municipio_tse : String
  cargo : String
  partido : String
  votos_partido : Int
  votos_validos : Option Int
  prop_votos_validos : Option ℚ
  perc_votos_validos : Option ℚ
deriving DecidableEq

/-- The final SELECT of `buscar_votos_partido` (lines 237-250): LEFT JOIN of
the votos_partido groups onto votos_validos_total USING (ano, turno, sigla_uf,
id_municipio_tse, cargo), plus the null-safe share columns. The ORDER BY clause
is not modelled; rows keep the group order. -/
def buscar_votos_partido_rows (rcd : List RCDRow) (dvm : List DVMRow)
    (sigla_partido sigla_uf cargo : String) (ano : Int) (turnos : List Int) :
    List VotosPartidoOut :=
  (votosPartidoAgg rcd sigla_partido sigla_uf cargo ano turnos).map fun kv =>
    let vv : Option Int :=
      ((votosValidosTotal dvm ano turnos).find? fun t =>
        decide (t.1 = vvKeyOfVP kv.1)).map fun t => t.2
    { ano := kv.1.ano
      sigla_uf := kv.1.sigla_uf
      id_municipio_tse := kv.1.id_municipio_tse
      cargo := kv.1.cargo
      partido := kv.1.partido
      votos_partido := kv.2
      votos_validos := vv
      prop_votos_validos := propVotosValidos kv.2 vv
      perc_votos_validos := percVotosValidos kv.2 vv }

/-- Four-field key named by the spec sentence for the total-valid-votes
aggregation: (year, round, state, locality). Used only to compare the spec
wording of claim C3 against the code. -/
structure VVKey4 where
  ano : Int
  turno : Int
  sigla_uf : String
  id_municipio_tse : String
deriving DecidableEq

def vvKey4OfVV (k : VVKey) : VVKey4 := ⟨k.ano, k.turno, k.sigla_uf, k.id_municipio_tse⟩

/-- The total-valid-votes aggregation as the spec sentence of claim C3 words
it: sum valid votes per (year, round, state, locality) and nothing more. This
definition follows the words of the spec, not the code, and exists only to be
compared with `votosValidosTotal`. -/
def votosValidosTotalSpecKey (dvm : List DVMRow) (ano : Int) (turnos : List Int) :
    List (VVKey4 × Int) :=
  groupSum (fun r => vvKey4OfVV (vvKeyOfDVM r)) (fun r => r.votos_validos)
    (dvm.filter fun r => decide (r.ano = ano) && decide (r.turno ∈ turnos))

/-- Direct recomputation of the total valid votes joined to one votos_partido
group: the sum of votos_validos over exactly the detail rows that pass the
WHERE filter of votos_validos_total and carry the given five-field key, or NULL
when no such row exists. -/
def directTotal (dvm : List DVMRow) (ano : Int) (turnos : List Int) (k : VVKey) :
    Option Int :=
  let ms := (dvm.filter fun r => decide (r.ano = ano) && decide (r.turno ∈ turnos)).filter
    fun r => decide (vvKeyOfDVM r = k)
  if ms.isEmpty then none else some ((ms.map fun r => r.votos_validos).sum)

/-- Row of resultados_candidato with the columns selected by the inner UNION
of the votos_unificados CTEs (lines 330-339 and 465-473). -/
structure ResCandRow where
  ano : Int
  cargo : String
  sigla_uf : String
  resultado : String
  sigla_partido : String
  sequencial_candidato : String
  votos : Int
deriving DecidableEq

/-- Row of resultados_candidato_municipio with the columns selected by the
inner UNION (lines 341-350 and 474-483); this table also carries
id_municipio. -/
structure ResCandMunRow where
  ano : Int
  cargo : String
  sigla_uf : String
  resultado : String
  sigla_partido : String
  sequencial_candidato : String
  id_municipio : String
  votos : Int
deriving DecidableEq

/-- Row shape of the inner UNION ALL in `buscar_custo_por_voto_eleitos`
(lines 329-351): the general-table branch adds CAST(NULL AS STRING) AS
id_municipio, the municipal branch keeps its id_municipio. -/
structure UnifRowCusto where
  ano : Int
  cargo : String
  sigla_uf : String
  resultado : String
  sigla_partido : String
  sequencial_candidato : String
  id_municipio : Option String
  votos : Int
deriving DecidableEq

/-- Row shape of the inner UNION ALL in `buscar_distribuicao_fundo_eleitoral`
(lines 464-484): no id_municipio column is selected. -/
structure UnifRowFundo where
  ano : Int
  cargo : String
  sigla_uf : String
  resultado : String
  sigla_partido : String
  sequencial_candidato : String
  votos : Int
deriving DecidableEq

/-- Group key of both votos_unificados CTEs: GROUP BY 1, 2, 3, 4, 5, 6 =
(ano, cargo, sigla_uf, resultado, sigla_partido, sequencial_candidato)
(lines 357 and 489). -/
structure UnifKey where
  ano : Int
  cargo : String
  sigla_uf : String
  resultado : String
  sigla_partido : String
  sequencial_candidato : String
deriving DecidableEq

def unifKeyOfCusto (r : UnifRowCusto) : UnifKey :=
  ⟨r.ano, r.cargo, r.sigla_uf, r.resultado, r.sigla_partido, r.sequencial_candidato⟩

def unifKeyOfFundo (r : UnifRowFundo) : UnifKey :=
  ⟨r.ano, r.cargo, r.sigla_uf, r.resultado, r.sigla_partido, r.sequencial_candidato⟩

/-- Dropping the id_municipio column turns a custo union row into a fundo
union row. -/
def forgetIdMunicipio (r : UnifRowCusto) : UnifRowFundo :=
  ⟨r.ano, r.cargo, r.sigla_uf, r.resultado, r.sigla_partido, r.sequencial_candidato, r.votos⟩

/-- The inner UNION ALL of `buscar_custo_por_voto_eleitos` (lines 329-351). -/
def unionCusto (geral : List ResCandRow) (mun : List ResCandMunRow) :
    List UnifRowCusto :=
  (geral.map fun r =>
    ⟨r.ano, r.cargo, r.sigla_uf, r.resultado, r.sigla_partido,
     r.sequencial_candidato, none, r.votos⟩) ++
  (mun.map fun r =>
    ⟨r.ano, r.cargo, r.sigla_uf, r.resultado, r.sigla_partido,
     r.sequencial_candidato, some r.id_municipio, r.votos⟩)

/-- The inner UNION ALL of `buscar_distribuicao_fundo_eleitoral`
(lines 464-484). -/
def unionFundo (geral : List ResCandRow) (mun : List ResCandMunRow) :
    List UnifRowFundo :=
  (geral.map fun r =>
    ⟨r.ano, r.cargo, r.sigla_uf, r.resultado, r.sigla_partido,
     r.sequencial_candidato, r.votos⟩) ++
  (mun.map fun r =>
    ⟨r.ano, r.cargo, r.sigla_uf, r.resultado, r.sigla_partido,
     r.sequencial_candidato, r.votos⟩)

/-- The WHERE clause of votos_unificados in `buscar_custo_por_voto_eleitos`
(lines 352-356), with @sigla_partido bound to the upper-cased party. -/
def custoWhere (anos : List Int) (cargos siglas_uf : List String)
    (partidoParam : String) (r : UnifRowCusto) : Bool :=
  decide (r.ano ∈ anos) && decide (r.cargo ∈ cargos) &&
  decide (r.sigla_partido = partidoParam) && likeEleito r.resultado &&
  decide (r.sigla_uf ∈ siglas_uf)

/-- The WHERE clause of votos_unificados in
`buscar_distribuicao_fundo_eleitoral` (lines 485-488): the same filters minus
the elected-outcome condition. -/
def fundoWhere (anos : List Int) (cargos siglas_uf : List String)
    (partidoParam : String) (r : UnifRowFundo) : Bool :=
  decide (r.ano ∈ anos) && decide (r.cargo ∈ cargos) &&
  decide (r.sigla_partido = partidoParam) &&
  decide (r.sigla_uf ∈ siglas_uf)

/-- The votos_unificados CTE of `buscar_custo_por_voto_eleitos`
(lines 320-358). -/
def votosUnificadosCusto (geral : List ResCandRow) (mun : List ResCandMunRow)
    (anos : List Int) (cargos siglas_uf : List String) (sigla_partido : String) :
    List (UnifKey × Int) :=
  groupSum unifKeyOfCusto (fun r => r.votos)
    ((unionCusto geral mun).filter
      (custoWhere anos cargos siglas_uf (pyUpper sigla_partido)))

/-- The votos_unificados CTE of `buscar_distribuicao_fundo_eleitoral`
(lines 455-490). -/
def votosUnificadosFundo (geral : List ResCandRow) (mun : List ResCandMunRow)
    (anos : List Int) (cargos siglas_uf : List String) (sigla_partido : String) :
    List (UnifKey × Int) :=
  groupSum unifKeyOfFundo (fun r => r.votos)
    ((unionFundo geral mun).filter
      (fundoWhere anos cargos siglas_uf (pyUpper sigla_partido)))

/-- Parameter bindings of `buscar_votos_partido` (lines 254-260). -/
def votosPartidoQueryParameters (sigla_partido sigla_uf cargo : String)
    (ano : Int) (turnos : List Int) : List QueryParam :=
  [⟨"ano_alvo", "INT64", .int ano⟩,
   ⟨"turnos", "INT64", .intArr turnos⟩,
   ⟨"sigla_partido", "STRING", .str (pyUpper sigla_partido)⟩,
   ⟨"sigla_uf", "STRING", .str (pyUpper sigla_uf)⟩,
   ⟨"cargo", "STRING", .str (pyLower cargo)⟩]

/-- Parameter bindings of `buscar_custo_por_voto_eleitos` (lines 394-399). -/
def custoQueryParameters (anos : List Int) (cargos siglas_uf : List String)
    (sigla_partido : String) : List QueryParam :=
  [⟨"anos", "INT64", .intArr anos⟩,
   ⟨"cargos", "STRING", .strArr cargos⟩,
   ⟨"siglas_uf", "STRING", .strArr siglas_uf⟩,
   ⟨"sigla_partido", "STRING", .str (pyUpper sigla_partido)⟩]

/-- Parameter bindings of `buscar_distribuicao_fundo_eleitoral`
(lines 548-553). -/
def fundoQueryParameters (anos : List Int) (cargos siglas_uf : List String)
    (sigla_partido : String) : List QueryParam :=
  [⟨"anos", "INT64", .intArr anos⟩,
   ⟨"cargos", "STRING", .strArr cargos⟩,
   ⟨"siglas_uf", "STRING", .strArr siglas_uf⟩,
   ⟨"sigla_partido", "STRING", .str (pyUpper sigla_partido)⟩]

/-- Validation prologue and parameter construction of
`buscar_custo_por_voto_eleitos` (lines 308-315 then 394-399): each ValueError
raise happens before the query text is assembled and before `client.query` is
reached, so an error result means no query was built and no external call was
attempted. -/
def buscar_custo_por_voto_eleitos (anos : List Int) (cargos siglas_uf : List String)
    (sigla_partido : String) : Except ApiError (List QueryParam) :=
  if anos.isEmpty then .error .anosVazio
  else if cargos.isEmpty then .error .cargosVazio
  else if siglas_uf.isEmpty then .error .siglasUfVazio
  else if sigla_partido.isEmpty || (pyStrip sigla_partido).isEmpty then
    .error .siglaPartidoVazio
  else .ok (custoQueryParameters anos cargos siglas_uf sigla_partido)

/-- Validation prologue and parameter construction of
`buscar_distribuicao_fundo_eleitoral` (lines 443-450 then 548-553). -/
def buscar_distribuicao_fundo_eleitoral (anos : List Int)
    (cargos siglas_uf : List String) (sigla_partido : String) :
    Except ApiError (List QueryParam) :=
  if anos.isEmpty then .error .anosVazio
  else if cargos.isEmpty then .error .cargosVazio
  else if siglas_uf.isEmpty then .error .siglasUfVazio
  else if sigla_partido.isEmpty || (pyStrip sigla_partido).isEmpty then
    .error .siglaPartidoVazio
  else .ok (fundoQueryParameters anos cargos siglas_uf sigla_partido)

/-- Warehouse result row of the custo query as the Python loop at lines 406-419
sees it: every column may be NULL. FLOAT64 columns are rationals. -/
structure CustoRawRow where
  ano : Option Int
  cargo : Option String
  sigla_uf : Option String
  sigla_partido : Option String
  numero_candidato : Option Int
  nome_urna : Option String
  votos : Option Int
  despesas_totais : Option ℚ
  custo_por_voto : Option ℚ
deriving DecidableEq

/-- Output dictionary built for one custo row (lines 407-419): numero_candidato,
despesas_totais and custo_por_voto keep NULL as None (the int and float calls
are identity conversions on the already-typed scalars), while votos is replaced
by 0 when NULL. -/
structure CustoOutRow where
  ano : Option Int
  cargo : Option String
  sigla_uf : Option String
  sigla_partido : Option String
  numero_candidato : Option Int
  nome_urna : Option String
  votos : Int
  despesas_totais : Option ℚ
  custo_por_voto : Option ℚ
deriving DecidableEq

def shapeCustoRow (r : CustoRawRow) : CustoOutRow :=
  { ano := r.ano
    cargo := r.cargo
    sigla_uf := r.sigla_uf
    sigla_partido := r.sigla_partido
    numero_candidato := r.numero_candidato
    nome_urna := r.nome_urna
    votos := match r.votos with | some v => v | none => 0
    despesas_totais := r.despesas_totais
    custo_por_voto := r.custo_por_voto }

/-- Warehouse result row of the fundo query as the loop at lines 560-575 sees
it; it additionally carries resultado and valor_fe_fp. -/
structure FundoRawRow where
  ano : Option Int
  cargo : Option String
  sigla_uf : Option String
  resultado : Option String
  sigla_partido : Option String
  numero_candidato : Option Int
  nome_urna : Option String
  votos : Option Int
  valor_fe_fp : Option ℚ
  despesas_totais : Option ℚ
  custo_por_voto : Option ℚ
deriving DecidableEq

/-- Output dictionary built for one fundo row (lines 561-575). -/
structure FundoOutRow where
  ano : Option Int
  cargo : Option String
  sigla_uf : Option String
  resultado : Option String
  sigla_partido : Option String
  numero_candidato : Option Int
  nome_urna : Option String
  votos : Int
  valor_fe_fp : Option ℚ
  despesas_totais : Option ℚ
  custo_por_voto : Option ℚ
deriving DecidableEq

def shapeFundoRow (r : FundoRawRow) : FundoOutRow :=
  { ano := r.ano
    cargo := r.cargo
    sigla_uf := r.sigla_uf
    resultado := r.resultado
    sigla_partido := r.sigla_partido
    numero_candidato := r.numero_candidato
    nome_urna := r.nome_urna
    votos := match r.votos with | some v => v | none => 0
    valor_fe_fp := r.valor_fe_fp
    despesas_totais := r.despesas_totais
    custo_por_voto := r.custo_por_voto }

/-- User record of the usuarios table (`app/models.py`); criado_em and
atualizado_em timestamps are not modelled. -/
structure Usuario where
  id : Nat
  nome_completo : String
  email : String
  senha_hash : String
  cargo : Option String
  municipio : Option String
  uf : Option String
  ativo : Bool
deriving DecidableEq

/-- Request body of POST /usuarios (`schemas.UsuarioCreate`). -/
structure UsuarioCreate where
  nome_completo : String
  email : String
  senha : String
  cargo : Option String
  municipio : Option String
  uf : Option String
deriving DecidableEq

/-- `criar_usuario` (main.py lines 124-152) over an explicit user store: the
relational table is a list of records, the duplicate-email lookup is the first
matching record, and the assigned primary key is passed in as `nextId`. The
password hash function is a parameter because `auth.gerar_hash_senha` wraps the
bcrypt passlib context. Returns the endpoint outcome together with the store
after the call. -/
def criar_usuario (hashSenha : String → String) (nextId : Nat)
    (db : List Usuario) (req : UsuarioCreate) :
    Except ApiError Usuario × List Usuario :=
  match db.find? fun u => decide (u.email = req.email) with
  | some _ => (.error .emailJaCadastrado, db)
  | none =>
    let novo : Usuario :=
      { id := nextId
        nome_completo := req.nome_completo
        email := req.email
        senha_hash := hashSenha req.senha
        cargo := req.cargo
        municipio := req.municipio
        uf := match req.uf with
          | some s => if s.isEmpty then none else some (pyUpper s)
          | none => none
        ativo := true }
    (.ok novo, db ++ [novo])

/-- Two detail rows sharing (ano, turno, sigla_uf, id_municipio_tse) but with
different cargo values, used to separate the code aggregation key of
votos_validos_total from the four-field key named by the spec. -/
def exDvmRows : List DVMRow :=
  [⟨2024, 1, "SP", "71072", "prefeito", 10⟩,
   ⟨2024, 1, "SP", "71072", "vereador", 20⟩]

/-- A stored user, for the duplicate-email scenario. -/
def exUsuario : Usuario :=
  ⟨1, "Ana Silva", "a@b.com", "hashed", none, none, none, true⟩

/-- A create request reusing the stored email. -/
def exCreateReq : UsuarioCreate :=
  ⟨"Outra Pessoa", "a@b.com", "secret1", none, none, none⟩

/-- A custo warehouse row with NULL votos, numero_candidato, despesas_totais
and custo_por_voto. -/
def exCustoRaw : CustoRawRow :=
  ⟨some 2022, some "deputado federal", some "SP", some "PODE", none,
   some "Fulano", none, none, none⟩

/-- A fundo warehouse row with NULL votos, numero_candidato, valor_fe_fp,
despesas_totais and custo_por_voto. -/
def exFundoRaw : FundoRawRow :=
  ⟨some 2022, some "deputado federal", some "SP", some "eleito", some "PODE",
   none, some "Fulano", none, none, none, none⟩

/- Helper lemmas about the GROUP BY denotation. -/

theorem map_filter_comp {α β : Type} (f : α → β) (p : β → Bool) (l : List α) :
    (l.filter fun a => p (f a)).map f = (l.map f).filter p := by
  induction l with
  | nil => rfl
  | cons a t ih => cases h : p (f a) <;> simp [List.filter_cons, h, ih]

theorem dedup_filter {α : Type} [DecidableEq α] (p : α → Bool) (l : List α) :
    (l.filter p).dedup = l.dedup.filter p := by
  induction l with
  | nil => rfl
  | cons a t ih =>
    cases hp : p a with
    | false =>
      rw [List.filter_cons_of_neg (by simp [hp])]
      by_cases hm : a ∈ t.dedup
      · rw [List.dedup_cons_of_mem' hm, ih]
      · rw [List.dedup_cons_of_not_mem' hm, List.filter_cons_of_neg (by simp [hp]), ih]
    | true =>
      rw [List.filter_cons_of_pos (by simp [hp])]
      by_cases hm : a ∈ t
      · have hmf : a ∈ t.filter p := List.mem_filter.mpr ⟨hm, hp⟩
        rw [List.dedup_cons_of_mem hmf, List.dedup_cons_of_mem hm, ih]
      · have hmf : a ∉ t.filter p := fun hc => hm (List.mem_filter.mp hc).1
        rw [List.dedup_cons_of_not_mem hmf, List.dedup_cons_of_not_mem hm,
          List.filter_cons_of_pos (by simp [hp]), ih]

theorem groupSum_filter_key {α κ : Type} [DecidableEq κ] (key : α → κ) (val : α → Int)
    (pk : κ → Bool) (rows : List α) :
    groupSum key val (rows.filter fun r => pk (key r)) =
      (groupSum key val rows).filter fun kv => pk kv.1 := by
  unfold groupSum
  rw [map_filter_comp key pk rows, dedup_filter]
  calc ((rows.map key).dedup.filter pk).map (fun k =>
          (k, (((rows.filter fun r => pk (key r)).filter fun r => decide (key r = k)).map val).sum))
      = ((rows.map key).dedup.filter pk).map (fun k =>
          (k, ((rows.filter fun r => decide (key r = k)).map val).sum)) := by
        refine List.map_eq_map_iff.mpr ?_
        intro k hk
        have hpk : pk k = true := (List.mem_filter.mp hk).2
        have hfil : ((rows.filter fun r => pk (key r)).filter fun r => decide (key r = k)) =
            rows.filter fun r => decide (key r = k) := by
          rw [List.filter_filter]
          refine List.filter_congr ?_
          intro r _
          by_cases hr : key r = k
          · simp [hr, hpk]
          · simp [hr]
        rw [hfil]
    _ = ((rows.map key).dedup.map (fun k =>
          (k, ((rows.filter fun r => decide (key r = k)).map val).sum))).filter
          (fun kv => pk kv.1) := by
        rw [← map_filter_comp (fun k =>
          (k, ((rows.filter fun r => decide (key r = k)).map val).sum)) (fun kv => pk kv.1)]

theorem groupSum_map {α β κ : Type} [DecidableEq κ] (g : α → β) (key : β → κ)
    (val : β → Int) (l : List α) :
    groupSum key val (l.map g) =
      groupSum (fun a => key (g a)) (fun a => val (g a)) l := by
  unfold groupSum
  rw [List.map_map]
  refine List.map_eq_map_iff.mpr ?_
  intro k _
  rw [← map_filter_comp g (fun b => decide (key b = k)) l, List.map_map]
  rfl

theorem find?_map_fst {κ β : Type} [DecidableEq κ] (g : κ → β) (l : List κ) (k : κ) :
    ((l.map fun x => (x, g x)).find? fun kv => decide (kv.1 = k)) =
      if k ∈ l then some (k, g k) else none := by
  induction l with
  | nil => rfl
  | cons a t ih =>
    rw [List.map_cons]
    by_cases ha : a = k
    · subst ha
      simp [List.find?_cons]
    · simp [List.find?_cons, ha, Ne.symm ha, ih]

theorem groupSum_find? {α κ : Type} [DecidableEq κ] (key : α → κ) (val : α → Int)
    (rows : List α) (k : κ) :
    (((groupSum key val rows).find? fun kv => decide (kv.1 = k)).map fun kv => kv.2) =
      if (rows.filter fun r => decide (key r = k)).isEmpty then none
      else some (((rows.filter fun r => decide (key r = k)).map val).sum) := by
  unfold groupSum
  rw [find?_map_fst]
  by_cases hmem : k ∈ (rows.map key).dedup
  · have hne : ¬ (rows.filter fun r => decide (key r = k)).isEmpty = true := by
      rw [List.isEmpty_iff]
      obtain ⟨r, hr, hkr⟩ := List.mem_map.mp (List.mem_dedup.mp hmem)
      intro hnil
      have : r ∈ rows.filter fun r => decide (key r = k) :=
        List.mem_filter.mpr ⟨hr, by simp [hkr]⟩
      rw [hnil] at this
      cases this
    simp [hmem, hne]
  · have hemp : (rows.filter fun r => decide (key r = k)).isEmpty = true := by
      rw [List.isEmpty_iff, List.filter_eq_nil_iff]
      intro r hr hkr
      exact hmem (List.mem_dedup.mpr (List.mem_map.mpr ⟨r, hr, by simpa using hkr⟩))
    simp [hmem, hemp]

theorem custoWhere_eq (anos : List Int) (cargos siglas_uf : List String)
    (pp : String) (r : UnifRowCusto) :
    custoWhere anos cargos siglas_uf pp r =
      (fundoWhere anos cargos siglas_uf pp (forgetIdMunicipio r) &&
        likeEleito (unifKeyOfCusto r).resultado) := by
  simp only [custoWhere, fundoWhere, forgetIdMunicipio, unifKeyOfCusto]
  cases decide (r.ano ∈ anos) <;> cases decide (r.cargo ∈ cargos) <;>
    cases decide (r.sigla_partido = pp) <;> cases likeEleito r.resultado <;>
    cases decide (r.sigla_uf ∈ siglas_uf) <;> rfl

theorem union_forget (geral : List ResCandRow) (mun : List ResCandMunRow) :
    (unionCusto geral mun).map forgetIdMunicipio = unionFundo geral mun := by
  unfold unionCusto unionFundo
  rw [List.map_append, List.map_map, List.map_map]
  rfl

/-- Claim C1: for every call to `buscar_cargos_eleitos_partido`, if abrangencia
is Estadual and territorio is absent or empty, or abrangencia is Municipal and
territorio or municipio is absent or empty, the call raises a ValueError, so no
query is built and no execution attempt is made. -/
theorem cargos_eleitos_missing_territory_raises (partido abrangencia : String)
    (territorio municipio : Option String)
    (h : (abrangencia = "Estadual" ∧ pyFalsyOpt territorio = true) ∨
         (abrangencia = "Municipal" ∧
           (pyFalsyOpt territorio = true ∨ pyFalsyOpt municipio = true))) :
    raisedError (buscar_cargos_eleitos_partido partido abrangencia territorio municipio)
      = true := by
  rcases h with ⟨ha, ht⟩ | ⟨ha, ht⟩
  · subst ha
    simp [buscar_cargos_eleitos_partido, raisedError, ht]
  · subst ha
    rcases ht with ht | hm
    · simp [buscar_cargos_eleitos_partido, raisedError, ht]
    · by_cases htt : pyFalsyOpt territorio = true <;>
        simp [buscar_cargos_eleitos_partido, raisedError, htt, hm]

/-- Witness for C1: a concrete Estadual call without territorio and a concrete
Municipal call with an empty municipio both raise. -/
theorem cargos_eleitos_missing_territory_raises_witness :
    raisedError (buscar_cargos_eleitos_partido "NOVO" "Estadual" none none) = true ∧
    raisedError (buscar_cargos_eleitos_partido "NOVO" "Municipal" (some "SP") (some ""))
      = true :=
  ⟨cargos_eleitos_missing_territory_raises "NOVO" "Estadual" none none
      (Or.inl ⟨rfl, rfl⟩),
   cargos_eleitos_missing_territory_raises "NOVO" "Municipal" (some "SP") (some "")
      (Or.inr ⟨rfl, Or.inr rfl⟩)⟩

/-- Claim C2: in the share and cost-per-vote computations, a zero or NULL
denominator yields a NULL result field; the total functions never raise a
runtime arithmetic error. -/
theorem share_and_cost_null_safe_division (votosPartido : Int)
    (votosValidos : Option Int) (despesas : Option ℚ) (votos : Int)
    (hv : votosValidos = none ∨ votosValidos = some 0) (hz : votos = 0) :
    propVotosValidos votosPartido votosValidos = none ∧
    percVotosValidos votosPartido votosValidos = none ∧
    custoPorVoto despesas votos = none := by
  subst hz
  have hp : propVotosValidos votosPartido votosValidos = none := by
    rcases hv with h | h <;> subst h <;> simp [propVotosValidos, safeDivide]
  refine ⟨hp, ?_, ?_⟩
  · simp [percVotosValidos, hp, safeMultiply]
  · cases despesas <;> simp [custoPorVoto, safeDivide]

/-- Witness for C2: concrete rows with a zero and with a NULL denominator. -/
theorem share_and_cost_null_safe_division_witness :
    propVotosValidos 7 (some 0) = none ∧
    percVotosValidos 7 (some 0) = none ∧
    custoPorVoto (some 3) 0 = none :=
  share_and_cost_null_safe_division 7 (some 0) (some 3) 0 (Or.inr rfl) rfl

/-- Counterexample to claim C3 as stated: the votos_validos_total aggregation
of `buscar_votos_partido` does not sum per (year, round, state, locality)
alone; on two detail rows sharing that four-field key but with different
cargo values the code produces two groups where the four-field aggregation
named by the spec produces one. -/
theorem votos_validos_total_key_counterexample :
    ((votosValidosTotal exDvmRows 2024 [1]).map fun kv => (vvKey4OfVV kv.1, kv.2)) ≠
      votosValidosTotalSpecKey exDvmRows 2024 [1] ∧
    (votosValidosTotal exDvmRows 2024 [1]).length = 2 ∧
    (votosValidosTotalSpecKey exDvmRows 2024 [1]).length = 1 := by
  refine ⟨by decide, by decide, by decide⟩

/-- Claim C3, amended: the total-valid-votes aggregation sums valid votes per
(year, round, state, locality, office) — exactly that five-field key — and the
party-votes aggregation is left-joined onto it by that shared five-field key:
each output row of `buscar_votos_partido` carries, as votos_validos, the sum of
votos_validos over exactly the filtered detail rows matching its groups
five-field key, or NULL when no such detail row exists. -/
theorem votos_partido_join_total_by_five_key (rcd : List RCDRow) (dvm : List DVMRow)
    (sigla_partido sigla_uf cargo : String) (ano : Int) (turnos : List Int) :
    buscar_votos_partido_rows rcd dvm sigla_partido sigla_uf cargo ano turnos =
      (votosPartidoAgg rcd sigla_partido sigla_uf cargo ano turnos).map fun kv =>
        { ano := kv.1.ano
          sigla_uf := kv.1.sigla_uf
          id_municipio_tse := kv.1.id_municipio_tse
          cargo := kv.1.cargo
          partido := kv.1.partido
          votos_partido := kv.2
          votos_validos := directTotal dvm ano turnos (vvKeyOfVP kv.1)
          prop_votos_validos := propVotosValidos kv.2 (directTotal dvm ano turnos (vvKeyOfVP kv.1))
          perc_votos_validos := percVotosValidos kv.2 (directTotal dvm ano turnos (vvKeyOfVP kv.1)) } := by
  unfold buscar_votos_partido_rows
  refine List.map_eq_map_iff.mpr ?_
  intro kv _
  have hvv : (((votosValidosTotal dvm ano turnos).find? fun t =>
        decide (t.1 = vvKeyOfVP kv.1)).map fun t => t.2) =
      directTotal dvm ano turnos (vvKeyOfVP kv.1) := by
    unfold votosValidosTotal directTotal
    rw [groupSum_find?]
  rw [hvv]

/-- Claim C4: the votos_unificados aggregation of
`buscar_distribuicao_fundo_eleitoral` computes the same per-candidate vote sums
as the one of `buscar_custo_por_voto_eleitos` with the elected-outcome filter
removed: for every dataset and parameter tuple, filtering the fundo groups by
the elected-outcome predicate gives exactly the custo groups, so the two agree
on every elected group and fundo additionally keeps the non-elected groups. -/
theorem fundo_votos_unificados_refines_custo (geral : List ResCandRow)
    (mun : List ResCandMunRow) (anos : List Int) (cargos siglas_uf : List String)
    (sigla_partido : String) :
    votosUnificadosCusto geral mun anos cargos siglas_uf sigla_partido =
      (votosUnificadosFundo geral mun anos cargos siglas_uf sigla_partido).filter
        fun kv => likeEleito kv.1.resultado := by
  unfold votosUnificadosCusto votosUnificadosFundo
  have h1 : (unionCusto geral mun).filter
        (custoWhere anos cargos siglas_uf (pyUpper sigla_partido)) =
      ((unionCusto geral mun).filter fun r =>
        fundoWhere anos cargos siglas_uf (pyUpper sigla_partido) (forgetIdMunicipio r)).filter
        fun r => likeEleito (unifKeyOfCusto r).resultado := by
    rw [List.filter_filter]
    refine List.filter_congr ?_
    intro r _
    rw [custoWhere_eq, Bool.and_comm]
  rw [h1, groupSum_filter_key unifKeyOfCusto (fun r => r.votos)
    (fun k => likeEleito k.resultado)]
  congr 1
  have h2 : ((unionCusto geral mun).filter fun r =>
        fundoWhere anos cargos siglas_uf (pyUpper sigla_partido) (forgetIdMunicipio r)).map
        forgetIdMunicipio =
      (unionFundo geral mun).filter
        (fundoWhere anos cargos siglas_uf (pyUpper sigla_partido)) := by
    rw [map_filter_comp forgetIdMunicipio
      (fundoWhere anos cargos siglas_uf (pyUpper sigla_partido)), union_forget]
  rw [← h2, groupSum_map]
  rfl

/-- Claim C5: the CandidateSearch endpoint clamps the requested limit into the
inclusive range 1..500 before issuing the query: values above 500 become 500,
values below 1 become 1, in-range values pass through unchanged. -/
theorem candidate_search_limit_clamped (limit : Int) :
    (500 < limit → clampLimit limit = 500) ∧
    (limit < 1 → clampLimit limit = 1) ∧
    (1 ≤ limit → limit ≤ 500 → clampLimit limit = limit) := by
  refine ⟨fun h => ?_, fun h => ?_, fun h1 h2 => ?_⟩ <;>
    simp only [clampLimit] <;> split_ifs <;> omega

/-- Witness for C5: limit 10000 becomes 500, limit 0 becomes 1, limit 100 is
unchanged. -/
theorem candidate_search_limit_clamped_witness :
    clampLimit 10000 = 500 ∧ clampLimit 0 = 1 ∧ clampLimit 100 = 100 :=
  ⟨(candidate_search_limit_clamped 10000).1 (by decide),
   (candidate_search_limit_clamped 0).2.1 (by decide),
   (candidate_search_limit_clamped 100).2.2 (by decide) (by decide)⟩

/-- Claim C6: every report function taking a party code upper-cases it before
binding it as a query parameter: two party inputs with equal upper-casings
(differing only in letter case) produce identical bound parameter lists, in
all four report functions. -/
theorem party_param_uppercased (p₁ p₂ : String) (hp : pyUpper p₁ = pyUpper p₂)
    (abrangencia : String) (territorio municipio : Option String)
    (sigla_uf cargo : String) (ano : Int) (turnos : List Int)
    (anos : List Int) (cargos siglas_uf : List String) :
    buscar_cargos_eleitos_partido p₁ abrangencia territorio municipio =
      buscar_cargos_eleitos_partido p₂ abrangencia territorio municipio ∧
    votosPartidoQueryParameters p₁ sigla_uf cargo ano turnos =
      votosPartidoQueryParameters p₂ sigla_uf cargo ano turnos ∧
    custoQueryParameters anos cargos siglas_uf p₁ =
      custoQueryParameters anos cargos siglas_uf p₂ ∧
    fundoQueryParameters anos cargos siglas_uf p₁ =
      fundoQueryParameters anos cargos siglas_uf p₂ := by
  refine ⟨?_, ?_, ?_, ?_⟩ <;>
    simp [buscar_cargos_eleitos_partido, votosPartidoQueryParameters,
      custoQueryParameters, fundoQueryParameters, hp]

/-- Witness for C6: the lower-case party pl and the upper-case party PL bind
identically in all four report functions at concrete inputs. -/
theorem party_param_uppercased_witness :
    buscar_cargos_eleitos_partido "pl" "Nacional" none none =
      buscar_cargos_eleitos_partido "PL" "Nacional" none none ∧
    votosPartidoQueryParameters "pl" "SP" "prefeito" 2024 [1, 2] =
      votosPartidoQueryParameters "PL" "SP" "prefeito" 2024 [1, 2] ∧
    custoQueryParameters [2022] ["deputado federal"] ["SP"] "pl" =
      custoQueryParameters [2022] ["deputado federal"] ["SP"] "PL" ∧
    fundoQueryParameters [2022] ["deputado federal"] ["SP"] "pl" =
      fundoQueryParameters [2022] ["deputado federal"] ["SP"] "PL" :=
  party_param_uppercased "pl" "PL" (by decide) "Nacional" none none "SP" "prefeito"
    2024 [1, 2] [2022] ["deputado federal"] ["SP"]

/-- Claim C7: for every call to `buscar_custo_por_voto_eleitos` or
`buscar_distribuicao_fundo_eleitoral`, if anos, cargos or siglas_uf is empty,
or sigla_partido is empty or whitespace, the call raises a ValueError before
any query is built or any external call is attempted. -/
theorem custo_fundo_empty_params_raise (anos : List Int)
    (cargos siglas_uf : List String) (sigla_partido : String)
    (h : anos = [] ∨ cargos = [] ∨ siglas_uf = [] ∨ pyStrip sigla_partido = "") :
    raisedError (buscar_custo_por_voto_eleitos anos cargos siglas_uf sigla_partido)
      = true ∧
    raisedError (buscar_distribuicao_fundo_eleitoral anos cargos siglas_uf sigla_partido)
      = true := by
  have hs : (anos.isEmpty || cargos.isEmpty || siglas_uf.isEmpty ||
      (sigla_partido.isEmpty || (pyStrip sigla_partido).isEmpty)) = true := by
    rcases h with h | h | h | h
    · simp [h]
    · simp [h]
    · simp [h]
    · have hpe : (pyStrip sigla_partido).isEmpty = true := by rw [h]; rfl
      simp [hpe]
  constructor
  · by_cases h1 : anos.isEmpty = true <;>
      by_cases h2 : cargos.isEmpty = true <;>
      by_cases h3 : siglas_uf.isEmpty = true <;>
      by_cases h4 : (sigla_partido.isEmpty || (pyStrip sigla_partido).isEmpty) = true <;>
      simp_all [buscar_custo_por_voto_eleitos, raisedError]
  · by_cases h1 : anos.isEmpty = true <;>
      by_cases h2 : cargos.isEmpty = true <;>
      by_cases h3 : siglas_uf.isEmpty = true <;>
      by_cases h4 : (sigla_partido.isEmpty || (pyStrip sigla_partido).isEmpty) = true <;>
      simp_all [buscar_distribuicao_fundo_eleitoral, raisedError]

/-- Witness for C7: the empty anos list makes both report functions raise. -/
theorem custo_fundo_empty_params_raise_witness :
    raisedError (buscar_custo_por_voto_eleitos [] ["deputado federal"] ["SP"] "PODE")
      = true ∧
    raisedError (buscar_distribuicao_fundo_eleitoral [] ["deputado federal"] ["SP"] "PODE")
      = true :=
  custo_fundo_empty_params_raise [] ["deputado federal"] ["SP"] "PODE" (Or.inl rfl)

/-- Claim C8: creating a user whose email equals the email of an already stored
user fails with the duplicate-email conflict error and leaves the store
unchanged: no new record is persisted. -/
theorem criar_usuario_duplicate_email_conflict (hashSenha : String → String)
    (nextId : Nat) (db : List Usuario) (req : UsuarioCreate)
    (h : ∃ u ∈ db, u.email = req.email) :
    (criar_usuario hashSenha nextId db req).1 = .error .emailJaCadastrado ∧
    (criar_usuario hashSenha nextId db req).2 = db := by
  obtain ⟨u, hu, he⟩ := h
  have hsome : (db.find? fun u => decide (u.email = req.email)).isSome := by
    rw [List.find?_isSome]
    exact ⟨u, hu, by simp [he]⟩
  unfold criar_usuario
  cases hf : db.find? fun u => decide (u.email = req.email) with
  | none => rw [hf] at hsome; cases hsome
  | some u0 => simp [hf]

/-- Witness for C8: re-creating the stored a-at-b user yields the conflict and
the single-record store is unchanged. -/
theorem criar_usuario_duplicate_email_conflict_witness :
    (criar_usuario id 2 [exUsuario] exCreateReq).1 = .error .emailJaCadastrado ∧
    (criar_usuario id 2 [exUsuario] exCreateReq).2 = [exUsuario] :=
  criar_usuario_duplicate_email_conflict id 2 [exUsuario] exCreateReq
    ⟨exUsuario, by simp, rfl⟩

/-- Claim C9: in `buscar_votos_partido`, the cargo parameter is lower-cased and
the sigla_uf parameter upper-cased before binding: two inputs differing only in
the letter case of cargo or sigla_uf produce identical bound parameter
lists. -/
theorem votos_partido_uf_cargo_case_normalized (sigla_partido : String)
    (uf₁ uf₂ c₁ c₂ : String) (ano : Int) (turnos : List Int)
    (hu : pyUpper uf₁ = pyUpper uf₂) (hc : pyLower c₁ = pyLower c₂) :
    votosPartidoQueryParameters sigla_partido uf₁ c₁ ano turnos =
      votosPartidoQueryParameters sigla_partido uf₂ c₂ ano turnos := by
  simp [votosPartidoQueryParameters, hu, hc]

/-- Witness for C9: uf inputs am and AM and cargo inputs Prefeito and prefeito
bind identically. -/
theorem votos_partido_uf_cargo_case_normalized_witness :
    votosPartidoQueryParameters "PODE" "am" "Prefeito" 2024 [1, 2] =
      votosPartidoQueryParameters "PODE" "AM" "prefeito" 2024 [1, 2] :=
  votos_partido_uf_cargo_case_normalized "PODE" "am" "AM" "Prefeito" "prefeito"
    2024 [1, 2] (by decide) (by decide)

/-- Claim C10: in the output rows of the custo and fundo reports, votos is
never NULL: a NULL vote count maps to the integer 0 and a non-NULL one passes
through, while numero_candidato, despesas_totais, valor_fe_fp and
custo_por_voto stay NULL when the source value is NULL. -/
theorem shape_rows_votos_never_null (rc : CustoRawRow) (rf : FundoRawRow) :
    ((shapeCustoRow rc).votos = rc.votos.getD 0 ∧
     (rc.numero_candidato = none → (shapeCustoRow rc).numero_candidato = none) ∧
     (rc.despesas_totais = none → (shapeCustoRow rc).despesas_totais = none) ∧
     (rc.custo_por_voto = none → (shapeCustoRow rc).custo_por_voto = none)) ∧
    ((shapeFundoRow rf).votos = rf.votos.getD 0 ∧
     (rf.numero_candidato = none → (shapeFundoRow rf).numero_candidato = none) ∧
     (rf.valor_fe_fp = none → (shapeFundoRow rf).valor_fe_fp = none) ∧
     (rf.despesas_totais = none → (shapeFundoRow rf).despesas_totais = none) ∧
     (rf.custo_por_voto = none → (shapeFundoRow rf).custo_por_voto = none)) := by
  constructor
  · refine ⟨?_, fun h => ?_, fun h => ?_, fun h => ?_⟩
    · cases hv : rc.votos <;> simp [shapeCustoRow, hv]
    · simp [shapeCustoRow, h]
    · simp [shapeCustoRow, h]
    · simp [shapeCustoRow, h]
  · refine ⟨?_, fun h => ?_, fun h => ?_, fun h => ?_, fun h => ?_⟩
    · cases hv : rf.votos <;> simp [shapeFundoRow, hv]
    · simp [shapeFundoRow, h]
    · simp [shapeFundoRow, h]
    · simp [shapeFundoRow, h]
    · simp [shapeFundoRow, h]

/-- Witness for C10: concrete warehouse rows whose NULL votos become 0 while
the NULL money and number fields stay NULL. -/
theorem shape_rows_votos_never_null_witness :
    (shapeCustoRow exCustoRaw).votos = exCustoRaw.votos.getD 0 ∧
    (shapeCustoRow exCustoRaw).numero_candidato = none ∧
    (shapeCustoRow exCustoRaw).despesas_totais = none ∧
    (shapeFundoRow exFundoRaw).votos = exFundoRaw.votos.getD 0 ∧
    (shapeFundoRow exFundoRaw).valor_fe_fp = none ∧
    (shapeFundoRow exFundoRaw).custo_por_voto = none :=
  ⟨(shape_rows_votos_never_null exCustoRaw exFundoRaw).1.1,
   (shape_rows_votos_never_null exCustoRaw exFundoRaw).1.2.1 rfl,
   (shape_rows_votos_never_null exCustoRaw exFundoRaw).1.2.2.1 rfl,
   (shape_rows_votos_never_null exCustoRaw exFundoRaw).2.1,
   (shape_rows_votos_never_null exCustoRaw exFundoRaw).2.2.2.1 rfl,
   (shape_rows_votos_never_null exCustoRaw exFundoRaw).2.2.2.2.2 rfl⟩

end LabVoto
